import Mathlib

/-!
Shallow embedding of the secure-QR core (secure_qr_generator.py and
counterfeit_detector.py) of the anti-counterfeit QR repository.

Conventions of the embedding:
* Raster images are `List` of rows of RGB triples of `Nat` (8-bit channel
  values).  numpy arrays are rectangular; on ragged lists the model is total
  via `getD` defaults, which no claim exercises.
* Real (float) arithmetic of the source is modelled exactly over `ℚ`.
  The presentation-level `round(x, 2)` / `round(x, 4)` calls that the source
  applies to scores before putting them in the result dictionaries are
  omitted: statuses and verdicts in the source are computed from the
  unrounded values.
* External library collaborators (the QR symbol renderer, scipy's
  `dct`/`idct` and `pearsonr`, cv2's `resize`, the seeded CPython and numpy
  pseudo random generators, `hashlib.sha256`, the PNG codec) are passed in
  as explicit function parameters bundled in `DetectExternals` /
  `GenExternals`: they are deterministic functions of their arguments.
  cv2's RGB→grayscale conversion and `cv2.Laplacian` (3×3 aperture,
  BORDER_REFLECT_101) are modelled concretely because claims about the
  metadata channel need their values.
* Python dictionaries with optional keys are structures of `Option` fields;
  a lookup of a missing key (`pattern['count']` with no `'count'` entry)
  is `Except.error`, modelling the uncaught `KeyError`.
* In-place mutation of the one raster buffer is explicit state passing:
  every function that receives the buffer returns it (changed by the
  generator's embedding steps, unchanged by the detector's channels).
-/

namespace SecureQR

/-- An 8-bit RGB pixel `(r, g, b)`. -/
abbrev Pixel : Type := Nat × Nat × Nat

/-- An H×W×3 raster: a list of rows of pixels. -/
abbrev Img : Type := List (List Pixel)

/-- A real-valued matrix (numpy 2-D float array). -/
abbrev Mat : Type := List (List ℚ)

/-- `img_array.shape[0]`. -/
def imgHeight (img : Img) : Nat := img.length

/-- `img_array.shape[1]` (numpy arrays are rectangular, so row 0 decides). -/
def imgWidth (img : Img) : Nat := (img.headD []).length

/-- `img_array[y, x]` (total via defaults, as numpy arrays are never ragged). -/
def getPixel (img : Img) (y x : Nat) : Pixel := (img.getD y []).getD x (0, 0, 0)

/-- `img_array[y, x] = p`: in-place single-pixel write, as buffer update. -/
def setPixel (img : Img) (y x : Nat) (p : Pixel) : Img :=
  img.set y ((img.getD y []).set x p)

/-- Number of rows of a matrix. -/
def matRows (m : Mat) : Nat := m.length

/-- Number of columns of a matrix (row 0 decides). -/
def matCols (m : Mat) : Nat := (m.headD []).length

/-- `m.shape`. -/
def matShape (m : Mat) : Nat × Nat := (matRows m, matCols m)

/-- `m.size`: total number of entries. -/
def matSize (m : Mat) : Nat := (m.map List.length).sum

/-- `m.flatten()`, row-major. -/
def matFlatten (m : Mat) : List ℚ := m.flatten

/-- numpy slice `m[r0:r0+rn, c0:c0+cn]` (clipping at the borders). -/
def matSlice (m : Mat) (r0 rn c0 cn : Nat) : Mat :=
  ((m.drop r0).take rn).map (fun row => (row.drop c0).take cn)

/-- cv2 `COLOR_RGB2GRAY` of one pixel: the fixed-point formula
`(R*4899 + G*9617 + B*1868 + 2^13) >> 14` that OpenCV uses for
`0.299 R + 0.587 G + 0.114 B`. -/
def rgb2grayVal (p : Pixel) : Nat :=
  (p.1 * 4899 + p.2.1 * 9617 + p.2.2 * 1868 + 8192) / 16384

/-- cv2 `cvtColor(img, COLOR_RGB2GRAY)`. -/
def cvtGray (img : Img) : List (List Nat) := img.map (fun row => row.map rgb2grayVal)

/-- Grayscale plane `.astype(float)`. -/
def grayToMat (g : List (List Nat)) : Mat :=
  g.map (fun (row : List Nat) => row.map (fun (v : Nat) => (v : ℚ)))

/-- Population variance `np.var` of a list of samples, `E[x²] − E[x]²`
(exact over ℚ; the empty list, on which the source never calls it, maps
to 0). -/
def popVar (l : List ℚ) : ℚ :=
  (l.map (fun x => x ^ 2)).sum / (l.length : ℚ) - (l.sum / (l.length : ℚ)) ^ 2

/-! ### Security metadata record (generator output / detector input) -/

/-- One recorded ghost-dot coordinate `{x, y, value}`. -/
structure GhostCoord where
  x : Nat
  y : Nat
  value : Nat
deriving DecidableEq, Repr

/-- The `ghost_pattern` dictionary; each field is `Option` because the
detector reads the keys of an arbitrary supplied dictionary. -/
structure GhostPattern where
  coordinates : Option (List GhostCoord)
  count : Option Nat
  pattern_hash : Option String
deriving DecidableEq, Repr

/-- The persisted security metadata record.  Defaults mirror the detector's
`security_metadata.get(...)` fallbacks: absent `ghost_pattern` is the empty
dictionary, absent `watermark_signature` is `[]`, absent `fingerprint_hash`
is `''`, absent `image_size` is `None`. -/
structure SecurityMetadata where
  ghost_pattern : GhostPattern := ⟨none, none, none⟩
  watermark_signature : Mat := []
  fingerprint_hash : String := ""
  image_size : Option (Nat × Nat) := none
  security_version : Nat := 1
deriving DecidableEq, Repr

/-! ### Ghost dot detection (`CounterfeitDetector._detect_ghost_dots`) -/

/-- `int(np.mean(pixel))` for an RGB pixel: float truncation toward zero,
which on the nonnegative channel values is floor division. -/
def pixelGrayInt (p : Pixel) : Nat := (p.1 + p.2.1 + p.2.2) / 3

/-- Result dictionary of the ghost channel.  `detection_rate` is `Option`
because the `NO_PATTERN` and zero-count returns omit that key. -/
structure GhostResult where
  score : ℚ
  detected : Nat
  expected : Nat
  detection_rate : Option ℚ
  status : String
deriving DecidableEq, Repr

/-- The loop body test of `_detect_ghost_dots`: out-of-bounds coordinates
are skipped (`continue`), otherwise the truncated integer mean must lie in
`[245, 255]` and differ from the recorded value by at most 5. -/
def ghostDotDetected (img : Img) (c : GhostCoord) : Bool :=
  if imgHeight img ≤ c.y || imgWidth img ≤ c.x then false
  else
    decide (245 ≤ pixelGrayInt (getPixel img c.y c.x)) &&
    decide (pixelGrayInt (getPixel img c.y c.x) ≤ 255) &&
    decide ((((pixelGrayInt (getPixel img c.y c.x) : Int)) - (c.value : Int)).natAbs ≤ 5)

/-- `detected` of the main path of `_detect_ghost_dots`. -/
def ghostDetectedCount (img : Img) (coords : List GhostCoord) : Nat :=
  (coords.filter (fun c => ghostDotDetected img c)).length

/-- `detection_rate = (detected / expected_count) * 100`. -/
def ghostDetectionRate (img : Img) (coords : List GhostCoord) (cnt : Nat) : ℚ :=
  ((ghostDetectedCount img coords : ℚ) / (cnt : ℚ)) * 100

/-- The result dictionary built on the main path of `_detect_ghost_dots`:
`score = min(100, detection_rate * 1.05)`, `status = PASS iff score ≥ 70`. -/
def ghostMainResult (img : Img) (coords : List GhostCoord) (cnt : Nat) : GhostResult :=
  { score := min 100 (ghostDetectionRate img coords cnt * (21 / 20))
    detected := ghostDetectedCount img coords
    expected := cnt
    detection_rate := some (ghostDetectionRate img coords cnt)
    status := if 70 ≤ min 100 (ghostDetectionRate img coords cnt * (21 / 20))
              then "PASS" else "FAIL" }

/-- `CounterfeitDetector._detect_ghost_dots`.  The function has no
`try/except`: reading `ghost_pattern['count']` when the dictionary has a
`'coordinates'` key but no `'count'` key raises `KeyError`, modelled as
`Except.error`.  The buffer is returned unchanged: the body never writes
to `img_array`. -/
def detectGhostDots (img : Img) (gp : GhostPattern) :
    Except String (GhostResult × Img) :=
  match gp.coordinates with
  | none =>
      .ok ({ score := 0, detected := 0, expected := 0, detection_rate := none,
             status := "NO_PATTERN" }, img)
  | some coords =>
      match gp.count with
      | none => .error "KeyError: count"
      | some cnt =>
          if cnt = 0 then
            .ok ({ score := 100, detected := 0, expected := 0, detection_rate := none,
                   status := "PASS" }, img)
          else
            .ok (ghostMainResult img coords cnt, img)

/-- Modelled from the spec's words, for comparison only (claim C4): the
spec's detection predicate uses the exact arithmetic mean of the three
channel values, not the source's `int(np.mean(...))` truncation. -/
def specGhostMean (p : Pixel) : ℚ := ((p.1 : ℚ) + (p.2.1 : ℚ) + (p.2.2 : ℚ)) / 3

/-- Modelled from the spec's words, for comparison only (claim C4): a
coordinate counts as detected iff it is in bounds, its exact channel mean
lies in [245, 255], and that mean is within 5 of the recorded value. -/
def specGhostDetected (img : Img) (c : GhostCoord) : Prop :=
  c.y < imgHeight img ∧ c.x < imgWidth img ∧
  245 ≤ specGhostMean (getPixel img c.y c.x) ∧
  specGhostMean (getPixel img c.y c.x) ≤ 255 ∧
  |specGhostMean (getPixel img c.y c.x) - (c.value : ℚ)| ≤ 5

instance (img : Img) (c : GhostCoord) : Decidable (specGhostDetected img c) := by
  unfold specGhostDetected; infer_instance

/-- The truncated-mean detection characterization (the amended claim C4),
stated independently of `ghostDotDetected` as a `Prop`. -/
def truncGhostDetected (img : Img) (c : GhostCoord) : Prop :=
  c.y < imgHeight img ∧ c.x < imgWidth img ∧
  245 ≤ pixelGrayInt (getPixel img c.y c.x) ∧
  pixelGrayInt (getPixel img c.y c.x) ≤ 255 ∧
  (((pixelGrayInt (getPixel img c.y c.x) : Int)) - (c.value : Int)).natAbs ≤ 5

/-! ### Frequency watermark verification
(`CounterfeitDetector._verify_frequency_watermark`) -/

/-- External collaborators of the detector, deterministic functions of
their arguments: scipy's orthonormal 2-D DCT, cv2's `resize(...,
INTER_LANCZOS4)` (arguments: matrix, target height, target width), and
scipy's `pearsonr` first component, where `none` models a NaN result. -/
structure DetectExternals where
  dct2 : Mat → Mat
  resize : Mat → Nat → Nat → Mat
  pearson : List ℚ → List ℚ → Option ℚ

/-- Result dictionary of the frequency channel. -/
structure FreqResult where
  score : ℚ
  correlation : ℚ
  status : String
deriving DecidableEq, Repr

/-- The grayscale plane the frequency channel transforms: grayscale
conversion followed by the conditional resize to `expected_size`. -/
def freqGray (ext : DetectExternals) (img : Img) (expected : Option (Nat × Nat)) : Mat :=
  match expected with
  | none => grayToMat (cvtGray img)
  | some (th, tw) =>
      if matShape (grayToMat (cvtGray img)) ≠ (th, tw) then
        ext.resize (grayToMat (cvtGray img)) th tw
      else grayToMat (cvtGray img)

/-- The mid-frequency block `dct_coeffs[h//4 : h//4+sig_h, w//4 : w//4+sig_w]`
extracted by the frequency channel (numpy slicing clips at the borders). -/
def freqExtracted (ext : DetectExternals) (img : Img) (sig : Mat)
    (expected : Option (Nat × Nat)) : Mat :=
  matSlice (ext.dct2 (freqGray ext img expected))
    (matRows (ext.dct2 (freqGray ext img expected)) / 4) (matRows sig)
    (matCols (ext.dct2 (freqGray ext img expected)) / 4) (matCols sig)

/-- The correlation after the NaN fallback: `pearsonr(sig.flatten(),
extracted.flatten())[0]`, with NaN replaced by 0. -/
def freqCorrelation (ext : DetectExternals) (img : Img) (sig : Mat)
    (expected : Option (Nat × Nat)) : ℚ :=
  (ext.pearson (matFlatten sig) (matFlatten (freqExtracted ext img sig expected))).getD 0

/-- `CounterfeitDetector._verify_frequency_watermark`.  The empty-image
branch models cv2's `cvtColor` raising on an empty array, which the
channel's `except` turns into an `ERROR:` result.  The buffer is returned
unchanged: the body only derives fresh arrays from it. -/
def verifyFrequencyWatermark (ext : DetectExternals) (img : Img) (sig : Mat)
    (expected : Option (Nat × Nat)) : FreqResult × Img :=
  if matSize sig = 0 then
    ({ score := 0, correlation := 0, status := "NO_SIGNATURE" }, img)
  else if imgHeight img = 0 ∨ imgWidth img = 0 then
    ({ score := 0, correlation := 0, status := "ERROR: empty image" }, img)
  else if matShape (freqExtracted ext img sig expected) ≠ matShape sig then
    ({ score := 0, correlation := 0, status := "SIZE_MISMATCH" }, img)
  else
    ({ score := max 0 (min 100 (freqCorrelation ext img sig expected * 100))
       correlation := freqCorrelation ext img sig expected
       status := if 50 ≤ max 0 (min 100 (freqCorrelation ext img sig expected * 100))
                 then "PASS" else "FAIL" }, img)

/-! ### Pixel fingerprint analysis
(`CounterfeitDetector._analyze_pixel_fingerprint`) -/

/-- `range(5, n, 5)`: the stride-5, offset-5 grid indices below `n`. -/
def gridIdx (n : Nat) : List Nat := (List.range ((n - 1) / 5)).map (fun k => 5 * (k + 1))

/-- The grid points `(y, x)` of `np.meshgrid(range(5,h,5), range(5,w,5),
indexing='ij')`, flattened row-major (y outer). -/
def fingerprintPoints (img : Img) : List (Nat × Nat) :=
  ((gridIdx (imgHeight img)).map
    (fun y => (gridIdx (imgWidth img)).map (fun x => (y, x)))).flatten

/-- The sampled pixels of the fingerprint grid. -/
def fingerprintSamples (img : Img) : List Pixel :=
  (fingerprintPoints img).map (fun yx => getPixel img yx.1 yx.2)

/-- The scalar channel values of the sampled pixels: `np.var` on the
`(N, 3)` sample array ranges over all `3·N` entries. -/
def pixelScalars (l : List Pixel) : List ℚ :=
  (l.map (fun p => [(p.1 : ℚ), (p.2.1 : ℚ), (p.2.2 : ℚ)])).flatten

/-- Result dictionary of the fingerprint channel; `variance` is `Option`
because the `NO_FINGERPRINT` and `NO_PIXELS` returns omit that key. -/
structure FingerprintResult where
  score : ℚ
  integrity : ℚ
  variance : Option ℚ
  status : String
deriving DecidableEq, Repr

/-- The integrity map of the fingerprint channel, including the final
`min(1.0, max(0, integrity))` clamp. -/
def fingerprintIntegrity (v : ℚ) : ℚ :=
  min 1 (max 0 (if 50 ≤ v ∧ v ≤ 200 then 9 / 10 + v / 2000
                else if v < 50 then v / 50 * (6 / 10)
                else 7 / 10))

/-- `CounterfeitDetector._analyze_pixel_fingerprint`.  The stored hash is
only tested for emptiness; its value never influences the result.  The
buffer is returned unchanged: the body only reads it. -/
def analyzePixelFingerprint (img : Img) (origHash : String) : FingerprintResult × Img :=
  if origHash = "" then
    ({ score := 0, integrity := 0, variance := none, status := "NO_FINGERPRINT" }, img)
  else if fingerprintSamples img = [] then
    ({ score := 0, integrity := 0, variance := none, status := "NO_PIXELS" }, img)
  else
    ({ score := fingerprintIntegrity (popVar (pixelScalars (fingerprintSamples img))) * 100
       integrity := fingerprintIntegrity (popVar (pixelScalars (fingerprintSamples img)))
       variance := some (popVar (pixelScalars (fingerprintSamples img)))
       status := if 60 ≤ fingerprintIntegrity (popVar (pixelScalars (fingerprintSamples img))) * 100
                 then "PASS" else "FAIL" }, img)

/-! ### Metadata analysis (`CounterfeitDetector._analyze_metadata`)

cv2's Laplacian with the default aperture is the 3×3 kernel
`[[0,1,0],[1,-4,1],[0,1,0]]` with BORDER_REFLECT_101 border handling,
computed here exactly over ℤ; its variance is exact over ℚ (on the integer
outputs, float64 `var` at the band boundaries of interest is exact). -/

/-- OpenCV `borderInterpolate(i, n, BORDER_REFLECT_101)` for the one-step
overshoots a 3×3 kernel can produce (a length-1 axis maps to index 0). -/
def refl101 (n : Nat) (i : Int) : Nat :=
  if n ≤ 1 then 0
  else if i < 0 then (-i).toNat
  else if (n : Int) ≤ i then (2 * ((n : Int) - 1) - i).toNat
  else i.toNat

/-- Grayscale value at a (possibly reflected) position. -/
def grayAt (g : List (List Nat)) (h w : Nat) (y x : Int) : Int :=
  ((g.getD (refl101 h y) []).getD (refl101 w x) 0 : Int)

/-- The Laplacian response at pixel `(y, x)`. -/
def lapAt (g : List (List Nat)) (h w : Nat) (y x : Nat) : Int :=
  grayAt g h w ((y : Int) - 1) (x : Int) + grayAt g h w ((y : Int) + 1) (x : Int) +
  grayAt g h w (y : Int) ((x : Int) - 1) + grayAt g h w (y : Int) ((x : Int) + 1) -
  4 * grayAt g h w (y : Int) (x : Int)

/-- All Laplacian responses of an image, row-major (exact over ℤ). -/
def lapValuesInt (img : Img) : List Int :=
  ((List.range (imgHeight img)).map (fun y =>
    (List.range (imgWidth img)).map (fun x =>
      lapAt (cvtGray img) (imgHeight img) (imgWidth img) y x))).flatten

/-- The Laplacian responses as the float64 values `np.var` consumes. -/
def lapValues (img : Img) : List ℚ := (lapValuesInt img).map (fun (z : Int) => (z : ℚ))

/-- `cv2.Laplacian(gray, CV_64F).var()`. -/
def laplacianVar (img : Img) : ℚ := popVar (lapValues img)

/-- Result dictionary of the metadata channel; the `ERROR` return omits the
`sharpness` and `has_camera_characteristics` keys. -/
structure MetaResult where
  score : ℚ
  sharpness : Option ℚ
  has_camera_characteristics : Option Bool
  status : String
deriving DecidableEq, Repr

/-- `CounterfeitDetector._analyze_metadata`.  The empty-image branch models
cv2's `cvtColor` raising on an empty array, caught by the channel's
`except` and scored with the neutral 50.  The buffer is returned
unchanged. -/
def analyzeMetadata (img : Img) : MetaResult × Img :=
  if imgHeight img = 0 ∨ imgWidth img = 0 then
    ({ score := 50, sharpness := none, has_camera_characteristics := none,
       status := "ERROR: empty image" }, img)
  else if 100 < laplacianVar img then
    ({ score := 90, sharpness := some (laplacianVar img),
       has_camera_characteristics := some true, status := "PASS" }, img)
  else if 50 < laplacianVar img then
    ({ score := 60, sharpness := some (laplacianVar img),
       has_camera_characteristics := some false, status := "PASS" }, img)
  else
    ({ score := 30, sharpness := some (laplacianVar img),
       has_camera_characteristics := some false, status := "FAIL" }, img)

/-! ### Verdict fusion (`CounterfeitDetector.verify_qr_authenticity`) -/

/-- The weighted composite:
`ghost*0.45 + frequency*0.10 + fingerprint*0.35 + metadata*0.10`. -/
def compositeScore (g f p m : ℚ) : ℚ :=
  g * (45 / 100) + f * (10 / 100) + p * (35 / 100) + m * (10 / 100)

/-- Verdict and warnings from the composite score: `≥ 70` AUTHENTIC with no
warnings, `≥ 40` SUSPICIOUS with one warning, otherwise COUNTERFEIT with
one warning. -/
def verdictOf (s : ℚ) : String × List String :=
  if 70 ≤ s then ("AUTHENTIC", [])
  else if 40 ≤ s then ("SUSPICIOUS", ["Authenticity score is below recommended threshold"])
  else ("COUNTERFEIT", ["Multiple security features failed verification"])

/-- The verification report. -/
structure VerificationReport where
  verdict : String
  authenticity_score : ℚ
  ghost_dots : GhostResult
  frequency_watermark : FreqResult
  pixel_fingerprint : FingerprintResult
  metadata : MetaResult
  warnings : List String
deriving DecidableEq, Repr

/-- The pure tail of `verify_qr_authenticity` after the ghost channel: the
three remaining channels, the weighted composite and the verdict, with the
buffer threaded through. -/
def verifyRest (ext : DetectExternals) (g : GhostResult) (img1 : Img)
    (md : SecurityMetadata) : VerificationReport × Img :=
  let fi := verifyFrequencyWatermark ext img1 md.watermark_signature md.image_size
  let pi := analyzePixelFingerprint fi.2 md.fingerprint_hash
  let mi := analyzeMetadata pi.2
  ({ verdict := (verdictOf (compositeScore g.score fi.1.score pi.1.score mi.1.score)).1
     authenticity_score := compositeScore g.score fi.1.score pi.1.score mi.1.score
     ghost_dots := g
     frequency_watermark := fi.1
     pixel_fingerprint := pi.1
     metadata := mi.1
     warnings := (verdictOf (compositeScore g.score fi.1.score pi.1.score mi.1.score)).2 },
   mi.2)

/-- `CounterfeitDetector.verify_qr_authenticity`, with the buffer threaded
through the four channels.  Only the ghost channel can raise (it has no
`try/except`); the raise propagates out of the method. -/
def verifyQrAuthenticity (ext : DetectExternals) (img : Img) (md : SecurityMetadata) :
    Except String (VerificationReport × Img) :=
  match detectGhostDots img md.ghost_pattern with
  | .error e => .error e
  | .ok gi => .ok (verifyRest ext gi.1 gi.2 md)

/-- `isOk` discriminator for the verification result. -/
def exceptIsOk {ε α : Type} : Except ε α → Bool
  | .ok _ => true
  | .error _ => false

/-! ### Secure generator (`SecureQRGenerator.generate_secure_qr`) -/

/-- A pixel is "white" for ghost-dot placement iff all three channels are
`≥ 250` (`np.all(img_array >= 250, axis=2)`). -/
def isWhitePixel (p : Pixel) : Bool :=
  decide (250 ≤ p.1) && decide (250 ≤ p.2.1) && decide (250 ≤ p.2.2)

/-- `np.argwhere(white_mask)`: the `(y, x)` positions of white pixels, in
row-major order. -/
def whiteCoords (img : Img) : List (Nat × Nat) :=
  ((List.range (imgHeight img)).map (fun y =>
    ((List.range (imgWidth img)).filter
      (fun x => isWhitePixel (getPixel img y x))).map (fun x => (y, x)))).flatten

/-- The seeded CPython generator `random.Random(seed)` as deterministic
streams: `sampleIdx n k` models `rng.sample(range(n), k)` and `grayVal i`
the `i`-th subsequent `rng.randint(250, 254)` call. -/
structure PyRandomStreams where
  sampleIdx : Nat → Nat → List Nat
  grayVal : Nat → Nat

/-- Insertion sort of ghost coordinates by `(x, y)` — the
`sorted(ghost_coords, key=lambda d: (d['x'], d['y']))` canonicalization
feeding the pattern hash. -/
def insertCoord (c : GhostCoord) : List GhostCoord → List GhostCoord
  | [] => [c]
  | d :: ds =>
      if c.x < d.x ∨ (c.x = d.x ∧ c.y ≤ d.y) then c :: d :: ds
      else d :: insertCoord c ds

/-- Sorted coordinate list for the pattern hash. -/
def sortCoords (l : List GhostCoord) : List GhostCoord := l.foldr insertCoord []

/-- External collaborators of the generator: the QR symbol renderer
(data, box size, border → RGB raster), the seeded CPython generator, SHA-256
over the canonical JSON of the sorted coordinate list and over plain
strings, the seeded numpy `RandomState` streams (`randn8` the 8×8 standard
normal signature, `noise i` the `i`-th grid point's three `randint(-3, 4)`
values), scipy's `dct`/`idct`, and the PNG encoder. -/
structure GenExternals where
  qrRender : String → Nat → Nat → Img
  pyRandom : String → PyRandomStreams
  sha256Json : List GhostCoord → String
  sha256hex : String → String
  npRandn8 : Nat → Mat
  npNoise : Nat → Nat → Int × Int × Int
  dct2 : Mat → Mat
  idct2 : Mat → Mat
  pngEncode : Img → List Nat

/-- Value of one hexadecimal digit. -/
def hexVal (c : Char) : Nat :=
  if c.isDigit then c.toNat - 48
  else if 'a' ≤ c ∧ c ≤ 'f' then c.toNat - 87
  else if 'A' ≤ c ∧ c ≤ 'F' then c.toNat - 55
  else 0

/-- `int(s, 16)` on a hex string. -/
def parseHex (s : String) : Nat := s.foldl (fun a c => a * 16 + hexVal c) 0

/-- `int(hashlib.sha256(seed.encode()).hexdigest()[:8], 16)`: the integer
seed of both numpy `RandomState` constructions. -/
def seedInt (sha : String → String) (s : String) : Nat := parseHex ((sha s).take 8)

/-- `SecureQRGenerator._embed_ghost_dots`: if no white pixel exists the
pattern is `{'coordinates': [], 'count': 0}` with no `pattern_hash` key;
otherwise `min(40, #white)` positions are drawn by the seeded generator and
a gray value in `[250, 254]` is written into all three channels at each. -/
def embedGhostDots (rng : PyRandomStreams) (ext : GenExternals) (img : Img) :
    GhostPattern × Img :=
  if (whiteCoords img).length = 0 then
    ({ coordinates := some [], count := some 0, pattern_hash := none }, img)
  else
    let num := min 40 (whiteCoords img).length
    let positions := (rng.sampleIdx (whiteCoords img).length num).map
      (fun i => (whiteCoords img).getD i (0, 0))
    let folded := positions.enum.foldl
      (fun (acc : List GhostCoord × Img) (ip : Nat × (Nat × Nat)) =>
        (⟨ip.2.2, ip.2.1, rng.grayVal ip.1⟩ :: acc.1,
         setPixel acc.2 ip.2.1 ip.2.2 (rng.grayVal ip.1, rng.grayVal ip.1, rng.grayVal ip.1)))
      ([], img)
    ({ coordinates := some folded.1.reverse
       count := some num
       pattern_hash := some (ext.sha256Json (sortCoords folded.1.reverse)) }, folded.2)

/-- `np.abs(block).mean()` (the empty block, unreachable for real QR
rasters, maps to 0). -/
def meanAbs (m : Mat) : ℚ :=
  ((matFlatten m).map (fun x => |x|)).sum / (matSize m : ℚ)

/-- `dct_coeffs[mid_h:mid_h+8, mid_w:mid_w+8] += signature * k`, the 8×8
mid-frequency signature embedding (for rasters at least ~11 pixels wide,
the slice is a full 8×8 block; numpy would raise a broadcast error on the
degenerate clipped case, which the modelled claims never reach). -/
def addSigBlock (d : Mat) (mh mw : Nat) (sig : Mat) (k : ℚ) : Mat :=
  d.enum.map (fun ir =>
    if mh ≤ ir.1 ∧ ir.1 < mh + 8 then
      ir.2.enum.map (fun jv =>
        if mw ≤ jv.1 ∧ jv.1 < mw + 8 then
          jv.2 + ((sig.getD (ir.1 - mh) []).getD (jv.1 - mw) 0) * k
        else jv.2)
    else ir.2)

/-- `np.clip(x, 0, 255).astype(np.uint8)`: clamp then truncate. -/
def toU8 (q : ℚ) : Nat := (Int.toNat ⌊min 255 (max 0 q)⌋)

/-- `cv2.cvtColor(gray, COLOR_GRAY2RGB)`. -/
def grayMatToRgb (m : Mat) : Img := m.map (fun row => row.map (fun v => (toU8 v, toU8 v, toU8 v)))

/-- OpenCV's round-half-to-even on the blend result. -/
def roundHalfEven (q : ℚ) : Int :=
  if q - ⌊q⌋ < 1 / 2 then ⌊q⌋
  else if 1 / 2 < q - ⌊q⌋ then ⌊q⌋ + 1
  else if ⌊q⌋ % 2 = 0 then ⌊q⌋ else ⌊q⌋ + 1

/-- One channel of `cv2.addWeighted(img, 0.7, watermarked, 0.3, 0)`. -/
def blendVal (a b : Nat) : Nat :=
  (roundHalfEven ((7 / 10) * (a : ℚ) + (3 / 10) * (b : ℚ))).toNat

/-- `img_array[:] = cv2.addWeighted(img_array, 0.7, watermarked_rgb, 0.3, 0)`. -/
def blendImgs (a b : Img) : Img :=
  (a.zip b).map (fun rr =>
    (rr.1.zip rr.2).map (fun pp =>
      (blendVal pp.1.1 pp.2.1, blendVal pp.1.2.1 pp.2.2.1, blendVal pp.1.2.2 pp.2.2.2)))

/-- `SecureQRGenerator._embed_frequency_watermark`: DCT the grayscale
raster, add the seeded 8×8 signature scaled by `0.1 ·` the mean magnitude
of the target block, inverse-transform, clip, re-expand to RGB, and blend
70 % original / 30 % watermarked into the buffer. -/
def embedFrequencyWatermark (ext : GenExternals) (doc : String) (img : Img) :
    Mat × Img :=
  let d := ext.dct2 (grayToMat (cvtGray img))
  let sig := ext.npRandn8 (seedInt ext.sha256hex doc)
  let mh := matRows d / 4
  let mw := matCols d / 4
  let k := (1 / 10) * meanAbs (matSlice d mh 8 mw 8)
  let wm := grayMatToRgb (ext.idct2 (addSigBlock d mh mw sig k))
  (sig, blendImgs img wm)

/-- `min(255, max(0, v + n))` on one channel of a fingerprint grid pixel. -/
def clipAddU8 (v : Nat) (n : Int) : Nat := (min 255 (max 0 ((v : Int) + n))).toNat

/-- The canonical JSON `json.dumps({'step': 5, 'noise_strength': 3,
'seed_hash': sha256(seed)}, sort_keys=True)`. -/
def fingerprintJson (sha : String → String) (doc : String) : String :=
  "\x7b\"noise_strength\": 3, \"seed_hash\": \"" ++ sha doc ++ "\", \"step\": 5\x7d"

/-- `SecureQRGenerator._add_pixel_fingerprint`: add seeded noise in
`[-3, 3]` per channel at every stride-5 grid point (clipped to `[0, 255]`)
and return the hash of the embedding parameters. -/
def addPixelFingerprint (ext : GenExternals) (doc : String) (img : Img) :
    String × Img :=
  let img2 := (fingerprintPoints img).enum.foldl
    (fun (acc : Img) (iyx : Nat × (Nat × Nat)) =>
      setPixel acc iyx.2.1 iyx.2.2
        (clipAddU8 (getPixel acc iyx.2.1 iyx.2.2).1 (ext.npNoise (seedInt ext.sha256hex doc) iyx.1).1,
         clipAddU8 (getPixel acc iyx.2.1 iyx.2.2).2.1 (ext.npNoise (seedInt ext.sha256hex doc) iyx.1).2.1,
         clipAddU8 (getPixel acc iyx.2.1 iyx.2.2).2.2 (ext.npNoise (seedInt ext.sha256hex doc) iyx.1).2.2))
    img
  (ext.sha256hex (fingerprintJson ext.sha256hex doc), img2)

/-- `SecureQRGenerator.generate_secure_qr`.  `ambient` models whatever
global interpreter state (default random generators, time, ...) a call
could observe; the source seeds every generator from `doc_id` alone and
consults no ambient state, so the model never reads it.  Returns the PNG
bytes and the security metadata record. -/
def generateSecureQr (ext : GenExternals) (ambient : Nat) (data doc_id : String)
    (box_size border : Nat) : List Nat × SecurityMetadata :=
  let img0 := ext.qrRender data box_size border
  let g := embedGhostDots (ext.pyRandom doc_id) ext img0
  let f := embedFrequencyWatermark ext doc_id g.2
  let p := addPixelFingerprint ext doc_id f.2
  (ext.pngEncode p.2,
   { ghost_pattern := g.1
     watermark_signature := f.1
     fingerprint_hash := p.1
     image_size := some (imgHeight p.2, imgWidth p.2)
     security_version := 1 })

/-! ### Spec-side comparison definitions and concrete instances -/

/-- Modelled from the spec's words, for comparison only (claim C7): the
integrity map as the spec states it — `[50,200] → 0.9 + v/2000` capped at
1.0, `< 50 → v/50·0.6`, `> 200 → 0.7` — without the source's outer
`max(0, ·)` clamp (redundant because a variance is nonnegative). -/
def specFingerprintIntegrity (v : ℚ) : ℚ :=
  if 50 ≤ v ∧ v ≤ 200 then min 1 (9 / 10 + v / 2000)
  else if v < 50 then v / 50 * (6 / 10)
  else 7 / 10

/-- Trivial detector externals for concrete evaluations: identity DCT,
identity resize, constant NaN-free zero correlation. -/
def extD : DetectExternals :=
  { dct2 := id, resize := fun m _ _ => m, pearson := fun _ _ => some 0 }

/-- Detector externals whose Pearson correlation is the constant 3/4. -/
def extD6 : DetectExternals :=
  { dct2 := id, resize := fun m _ _ => m, pearson := fun _ _ => some (3 / 4) }

/-- Deterministic stand-in for the seeded CPython generator. -/
def rngW : PyRandomStreams := { sampleIdx := fun _ _ => [], grayVal := fun _ => 250 }

/-- Trivial generator externals for concrete evaluations. -/
def extG : GenExternals :=
  { qrRender := fun _ _ _ => []
    pyRandom := fun _ => rngW
    sha256Json := fun _ => ""
    sha256hex := fun _ => ""
    npRandn8 := fun _ => []
    npNoise := fun _ _ => (0, 0, 0)
    dct2 := id
    idct2 := id
    pngEncode := fun _ => [] }

/-- A single black pixel. -/
def imgBlack1 : Img := [[(0, 0, 0)]]

/-- One near-white pixel whose channel sum is 751: exact mean 250⅓,
truncated integer mean 250. -/
def imgC4 : Img := [[(250, 250, 251)]]

/-- A recorded coordinate with value 245 at that pixel: the truncated mean
250 is within 5 of 245, the exact mean 250⅓ is not. -/
def cC4 : GhostCoord := { x := 0, y := 0, value := 245 }

/-- Ghost pattern holding exactly `cC4` with count 1. -/
def patC4 : GhostPattern := { coordinates := some [cC4], count := some 1, pattern_hash := none }

/-- A metadata record whose ghost pattern has a `coordinates` key but no
`count` key. -/
def mdC3 : SecurityMetadata :=
  { ghost_pattern := { coordinates := some [⟨0, 0, 250⟩], count := none, pattern_hash := none } }

/-- A 5×8 raster, uniform gray 200 except one pixel of 210 at row 2,
column 3: its Laplacian responses are one −40, four +10 and thirty-five 0,
so the Laplacian variance is exactly (1600+400)/40 = 50. -/
def imgC8 : Img :=
  [List.replicate 8 (200, 200, 200),
   List.replicate 8 (200, 200, 200),
   (List.replicate 8 (200, 200, 200)).set 3 (210, 210, 210),
   List.replicate 8 (200, 200, 200),
   List.replicate 8 (200, 200, 200)]

/-- A 6×6 uniform raster: the stride-5 fingerprint grid samples exactly the
pixel at (5,5). -/
def imgF : Img := List.replicate 6 (List.replicate 6 (100, 100, 100))

/-- A 4×4 white raster for the frequency-channel evaluation. -/
def imgW6 : Img := List.replicate 4 (List.replicate 4 (255, 255, 255))

/-- A detected ghost coordinate on a pure white pixel. -/
def cA : GhostCoord := { x := 0, y := 0, value := 250 }

/-- A 1×1 white raster. -/
def imgA : Img := [[(255, 255, 255)]]

/-- Ghost pattern holding exactly `cA` with count 1. -/
def patA : GhostPattern := { coordinates := some [cA], count := some 1, pattern_hash := none }

/-- The ghost result of the `NO_PATTERN` branch. -/
def gNoPattern : GhostResult :=
  { score := 0, detected := 0, expected := 0, detection_rate := none, status := "NO_PATTERN" }

/-! ## Helper lemmas -/

theorem sum_sq_sub (l : List ℚ) (m : ℚ) :
    (l.map (fun x => (x - m) ^ 2)).sum
      = (l.map (fun x => x ^ 2)).sum - 2 * m * l.sum + (l.length : ℚ) * m ^ 2 := by
  induction l with
  | nil => simp
  | cons a t ih =>
      simp only [List.map_cons, List.sum_cons, List.length_cons, ih]
      push_cast
      ring

theorem popVar_eq_sum_sq_dev (l : List ℚ) (h : l ≠ []) :
    popVar l = (l.map (fun x => (x - l.sum / (l.length : ℚ)) ^ 2)).sum / (l.length : ℚ) := by
  have hn : (l.length : ℚ) ≠ 0 := by
    exact_mod_cast fun h0 => h (List.length_eq_zero.mp (by exact_mod_cast h0))
  rw [sum_sq_sub]
  unfold popVar
  field_simp
  ring

theorem popVar_nonneg (l : List ℚ) (h : l ≠ []) : 0 ≤ popVar l := by
  rw [popVar_eq_sum_sq_dev l h]
  apply div_nonneg
  · apply List.sum_nonneg
    intro x hx
    obtain ⟨y, _, rfl⟩ := List.mem_map.mp hx
    positivity
  · positivity

theorem intCast_list_sum (l : List Int) :
    ((l.sum : Int) : ℚ) = (l.map (fun (z : Int) => (z : ℚ))).sum := by
  induction l with
  | nil => simp
  | cons a t ih => simp [ih]

theorem intCast_sq_list_sum (l : List Int) :
    (l.map (fun (z : Int) => ((z : ℚ)) ^ 2)).sum
      = (((l.map (fun z => z * z)).sum : Int) : ℚ) := by
  induction l with
  | nil => simp
  | cons a t ih =>
      simp only [List.map_cons, List.sum_cons, ih]
      push_cast
      ring

theorem pixelScalars_ne_nil (l : List Pixel) (h : l ≠ []) : pixelScalars l ≠ [] := by
  cases l with
  | nil => exact absurd rfl h
  | cons a t => simp [pixelScalars]

theorem fingerprintIntegrity_eq_spec (v : ℚ) (hv : 0 ≤ v) :
    fingerprintIntegrity v = specFingerprintIntegrity v := by
  unfold fingerprintIntegrity specFingerprintIntegrity
  split_ifs with h1 h2
  · rw [max_eq_right (by linarith [h1.1] : (0 : ℚ) ≤ 9 / 10 + v / 2000)]
  · rw [max_eq_right (by positivity : (0 : ℚ) ≤ v / 50 * (6 / 10)),
      min_eq_right (by linarith : v / 50 * (6 / 10) ≤ 1)]
  · rw [max_eq_right (by norm_num : (0 : ℚ) ≤ 7 / 10),
      min_eq_right (by norm_num : (7 : ℚ) / 10 ≤ 1)]

theorem detectGhostDots_ok_of (img : Img) (gp : GhostPattern)
    (h : gp.coordinates = none ∨ gp.count.isSome) :
    ∃ gr, detectGhostDots img gp = .ok (gr, img) := by
  unfold detectGhostDots
  cases hc : gp.coordinates with
  | none => exact ⟨_, rfl⟩
  | some coords =>
      cases hn : gp.count with
      | none =>
          rcases h with h | h
          · rw [hc] at h; cases h
          · rw [hn] at h; cases h
      | some cnt =>
          by_cases h0 : cnt = 0
          · exact ⟨_, by subst h0; rfl⟩
          · exact ⟨ghostMainResult img coords cnt, by simp [h0]⟩

theorem detectGhostDots_snd (img : Img) (gp : GhostPattern) (pr : GhostResult × Img)
    (h : detectGhostDots img gp = .ok pr) : pr.2 = img := by
  unfold detectGhostDots at h
  split at h
  · simp only [Except.ok.injEq] at h; rw [← h]
  · split at h
    · cases h
    · split at h <;> · simp only [Except.ok.injEq] at h; rw [← h]

theorem verifyFrequencyWatermark_snd (ext : DetectExternals) (img : Img) (sig : Mat)
    (expected : Option (Nat × Nat)) :
    (verifyFrequencyWatermark ext img sig expected).2 = img := by
  unfold verifyFrequencyWatermark
  split_ifs <;> rfl

theorem analyzePixelFingerprint_snd (img : Img) (origHash : String) :
    (analyzePixelFingerprint img origHash).2 = img := by
  unfold analyzePixelFingerprint
  split_ifs <;> rfl

theorem analyzeMetadata_snd (img : Img) : (analyzeMetadata img).2 = img := by
  unfold analyzeMetadata
  split_ifs <;> rfl

theorem verifyRest_snd (ext : DetectExternals) (g : GhostResult) (img1 : Img)
    (md : SecurityMetadata) : (verifyRest ext g img1 md).2 = img1 := by
  unfold verifyRest
  simp [verifyFrequencyWatermark_snd, analyzePixelFingerprint_snd, analyzeMetadata_snd]

theorem ghostDotDetected_iff (img : Img) (c : GhostCoord) :
    ghostDotDetected img c = true ↔ truncGhostDetected img c := by
  unfold ghostDotDetected truncGhostDetected
  split
  · next hb =>
      simp only [Bool.or_eq_true, decide_eq_true_eq] at hb
      constructor
      · intro hf; cases hf
      · rintro ⟨h1, h2, -⟩; omega
  · next hb =>
      simp only [Bool.or_eq_true, decide_eq_true_eq, not_or, not_le] at hb
      simp only [Bool.and_eq_true, decide_eq_true_eq]
      constructor
      · rintro ⟨⟨h1, h2⟩, h3⟩; exact ⟨hb.1, hb.2, h1, h2, h3⟩
      · rintro ⟨-, -, h1, h2, h3⟩; exact ⟨⟨h1, h2⟩, h3⟩

theorem whiteCoords_eq_nil (img : Img)
    (h : ∀ y x, y < imgHeight img → x < imgWidth img →
        isWhitePixel (getPixel img y x) = false) :
    whiteCoords img = [] := by
  unfold whiteCoords
  rw [List.flatten_eq_nil_iff]
  intro l hl
  obtain ⟨y, hy, rfl⟩ := List.mem_map.mp hl
  rw [List.map_eq_nil_iff, List.filter_eq_nil_iff]
  intro x hx
  simp [h y x (List.mem_range.mp hy) (List.mem_range.mp hx)]

/-! ## Claim theorems -/

/-- Claim C1 (confirmed): for every quadruple of channel scores the
composite authenticity score is the weighted sum with weights 0.45, 0.10,
0.35, 0.10 for ghost, frequency, fingerprint and metadata, classified as
AUTHENTIC with no warnings at `≥ 70`, SUSPICIOUS with one warning on
`[40, 70)`, COUNTERFEIT with one warning below 40; and every report
produced by `verify_qr_authenticity` carries exactly this composite,
verdict and warnings of its four channel sub-results. -/
theorem verdict_fusion_weights_and_thresholds :
    (∀ g f p m : ℚ,
        compositeScore g f p m
            = g * (45 / 100) + f * (10 / 100) + p * (35 / 100) + m * (10 / 100)
          ∧ (70 ≤ compositeScore g f p m →
              verdictOf (compositeScore g f p m) = ("AUTHENTIC", []))
          ∧ (40 ≤ compositeScore g f p m ∧ compositeScore g f p m < 70 →
              (verdictOf (compositeScore g f p m)).1 = "SUSPICIOUS"
                ∧ (verdictOf (compositeScore g f p m)).2.length = 1)
          ∧ (compositeScore g f p m < 40 →
              (verdictOf (compositeScore g f p m)).1 = "COUNTERFEIT"
                ∧ (verdictOf (compositeScore g f p m)).2.length = 1))
    ∧ (∀ (ext : DetectExternals) (img : Img) (md : SecurityMetadata)
          (r : VerificationReport) (i : Img),
        verifyQrAuthenticity ext img md = .ok (r, i) →
          r.authenticity_score
              = compositeScore r.ghost_dots.score r.frequency_watermark.score
                  r.pixel_fingerprint.score r.metadata.score
            ∧ r.verdict = (verdictOf r.authenticity_score).1
            ∧ r.warnings = (verdictOf r.authenticity_score).2) := by
  constructor
  · intro g f p m
    refine ⟨rfl, ?_, ?_, ?_⟩
    · intro hs
      unfold verdictOf
      rw [if_pos hs]
    · rintro ⟨h40, h70⟩
      unfold verdictOf
      rw [if_neg (by linarith), if_pos h40]
      exact ⟨rfl, rfl⟩
    · intro h40
      unfold verdictOf
      rw [if_neg (by linarith), if_neg (by linarith)]
      exact ⟨rfl, rfl⟩
  · intro ext img md r i h
    unfold verifyQrAuthenticity at h
    split at h
    · cases h
    · next gi hg =>
        simp only [Except.ok.injEq] at h
        have hr : r = (verifyRest ext gi.1 gi.2 md).1 := by rw [h]
        subst hr
        exact ⟨rfl, rfl, rfl⟩

/-- Witness for C1 at the concrete score quadruple (100, 100, 100, 100)
and at one concrete verification run. -/
theorem verdict_fusion_weights_and_thresholds_witness :
    verdictOf (compositeScore 100 100 100 100) = ("AUTHENTIC", []) :=
  (verdict_fusion_weights_and_thresholds.1 100 100 100 100).2.1 (by norm_num [compositeScore])

/-- Claim C5 (confirmed): generation is deterministic.  All randomness is
drawn from generators seeded by `doc_id` alone (bundled with the fixed QR
encoder output in `ext`); no ambient interpreter state is consulted, so two
calls under arbitrary ambient states yield identical PNG bytes and
identical security metadata. -/
theorem generate_deterministic (ext : GenExternals) (a₁ a₂ : Nat) (data doc_id : String)
    (box_size border : Nat) :
    generateSecureQr ext a₁ data doc_id box_size border
      = generateSecureQr ext a₂ data doc_id box_size border := rfl

/-- Claim C10 (confirmed): on a raster with no pixel whose three channels
are all `≥ 250`, ghost embedding returns `{'coordinates': [], 'count': 0}`
with no `pattern_hash` key, and detecting against that pattern yields score
100 with status PASS (not `NO_PATTERN`), because the `coordinates` key is
present. -/
theorem ghost_embed_no_white (rng : PyRandomStreams) (ext : GenExternals) (img : Img)
    (h : ∀ y x, y < imgHeight img → x < imgWidth img →
        isWhitePixel (getPixel img y x) = false) :
    embedGhostDots rng ext img
        = ({ coordinates := some [], count := some 0, pattern_hash := none }, img)
    ∧ ∀ img2 : Img,
        detectGhostDots img2 { coordinates := some [], count := some 0, pattern_hash := none }
          = .ok ({ score := 100, detected := 0, expected := 0, detection_rate := none,
                   status := "PASS" }, img2) := by
  constructor
  · unfold embedGhostDots
    rw [whiteCoords_eq_nil img h]
    rfl
  · intro img2
    rfl

/-- Witness for C10 on the all-black 1×1 raster. -/
theorem ghost_embed_no_white_witness :
    embedGhostDots rngW extG imgBlack1
      = ({ coordinates := some [], count := some 0, pattern_hash := none }, imgBlack1) :=
  (ghost_embed_no_white rngW extG imgBlack1
    (by intro y x hy hx
        have hy0 : y = 0 := by simpa [imgBlack1, imgHeight] using hy
        have hx0 : x = 0 := by simpa [imgBlack1, imgWidth] using hx
        subst hy0; subst hx0; decide)).1

/-- Claim C9 (confirmed): verification never mutates the candidate image.
Whenever `verify_qr_authenticity` returns a report, the buffer it hands
back after threading it through all four channels is the input buffer:
every channel only reads it. -/
theorem verify_preserves_image (ext : DetectExternals) (img : Img) (md : SecurityMetadata)
    (r : VerificationReport) (i : Img)
    (h : verifyQrAuthenticity ext img md = .ok (r, i)) : i = img := by
  unfold verifyQrAuthenticity at h
  split at h
  · cases h
  · next gi hg =>
      simp only [Except.ok.injEq] at h
      have h2 : gi.2 = img := detectGhostDots_snd img md.ghost_pattern gi hg
      have hi : i = (verifyRest ext gi.1 gi.2 md).2 := by rw [h]
      rw [hi, verifyRest_snd, h2]

/-- Witness for C9 on a concrete run over the all-black 1×1 raster. -/
theorem verify_preserves_image_witness :
    (verifyRest extD gNoPattern imgBlack1 {}).2 = imgBlack1 :=
  verify_preserves_image extD imgBlack1 {} (verifyRest extD gNoPattern imgBlack1 {}).1
    (verifyRest extD gNoPattern imgBlack1 {}).2 rfl

/-- Claim C3 counterexample: a metadata record whose ghost pattern has a
`coordinates` key but no `count` key makes `verify_qr_authenticity` raise
a `KeyError` — the ghost channel has no exception handling, so not every
channel converts its failures into a scored result. -/
theorem verify_keyerror_on_missing_count :
    verifyQrAuthenticity extD imgBlack1 mdC3 = .error "KeyError: count" := rfl

/-- Claim C3 (corrected): for every candidate image and every metadata
record whose ghost pattern either lacks the `coordinates` key or carries a
`count` key, `verify_qr_authenticity` returns a report, and the composite
score and tri-state verdict are always computed from the four channel
results.  (The frequency, fingerprint and metadata channels catch their
own failures; the ghost channel does not, per the counterexample.) -/
theorem verify_total_when_count_key_present (ext : DetectExternals) (img : Img)
    (md : SecurityMetadata)
    (h : md.ghost_pattern.coordinates = none ∨ md.ghost_pattern.count.isSome) :
    exceptIsOk (verifyQrAuthenticity ext img md) = true
    ∧ ∀ (r : VerificationReport) (i : Img), verifyQrAuthenticity ext img md = .ok (r, i) →
        r.authenticity_score
            = compositeScore r.ghost_dots.score r.frequency_watermark.score
                r.pixel_fingerprint.score r.metadata.score
        ∧ (r.verdict = "AUTHENTIC" ∨ r.verdict = "SUSPICIOUS" ∨ r.verdict = "COUNTERFEIT") := by
  obtain ⟨gr, hg⟩ := detectGhostDots_ok_of img md.ghost_pattern h
  constructor
  · unfold verifyQrAuthenticity
    rw [hg]
    rfl
  · intro r i hri
    unfold verifyQrAuthenticity at hri
    rw [hg] at hri
    simp only [Except.ok.injEq] at hri
    have hr : r = (verifyRest ext (gr, img).1 (gr, img).2 md).1 := by rw [hri]
    subst hr
    refine ⟨rfl, ?_⟩
    show (verdictOf _).1 = "AUTHENTIC" ∨ (verdictOf _).1 = "SUSPICIOUS"
        ∨ (verdictOf _).1 = "COUNTERFEIT"
    unfold verdictOf
    split_ifs <;> simp

/-- Witness for C3 on the empty metadata record (no ghost pattern keys). -/
theorem verify_total_when_count_key_present_witness :
    exceptIsOk (verifyQrAuthenticity extD imgBlack1 {}) = true :=
  (verify_total_when_count_key_present extD imgBlack1 {} (Or.inl rfl)).1

/-- Claim C4 counterexample: at the 1×1 raster with pixel (250, 250, 251)
and a recorded coordinate of value 245, the code counts the dot as
detected (truncated integer mean 250, |250−245| ≤ 5) and scores 100, while
the claim's exact-mean criterion rejects it (|250⅓ − 245| > 5), so the
claim's detected-iff characterization is false. -/
theorem ghost_exact_mean_counterexample :
    detectGhostDots imgC4 patC4 = .ok (ghostMainResult imgC4 [cC4] 1, imgC4)
    ∧ (ghostMainResult imgC4 [cC4] 1).detected = 1
    ∧ (ghostMainResult imgC4 [cC4] 1).score = 100
    ∧ ¬ specGhostDetected imgC4 cC4 := by
  have hcount : ghostDetectedCount imgC4 [cC4] = 1 := by decide
  have hrate : ghostDetectionRate imgC4 [cC4] 1 = 100 := by
    unfold ghostDetectionRate
    rw [hcount]
    norm_num
  refine ⟨rfl, by decide, ?_, ?_⟩
  · show min 100 (ghostDetectionRate imgC4 [cC4] 1 * (21 / 20)) = 100
    rw [hrate]
    norm_num
  · rintro ⟨-, -, -, -, h5⟩
    have hm : specGhostMean (getPixel imgC4 cC4.y cC4.x) = 751 / 3 := by
      norm_num [specGhostMean, getPixel, imgC4, cC4]
    rw [hm, abs_sub_le_iff] at h5
    have h6 := h5.1
    norm_num [cC4] at h6

/-- Claim C4 (corrected): ghost-dot detection counts a recorded coordinate
as detected iff it is in bounds, the *integer-truncated* mean of its three
channel values lies in [245, 255], and that truncated mean differs from the
recorded value by at most 5; an out-of-bounds coordinate is silently
skipped yet still counts in the denominator (`expected = count`);
`detection_rate = detected/expected·100`; `score = min(100, rate·1.05)`;
status PASS iff `score ≥ 70`; and count 0 yields score 100 with PASS. -/
theorem ghost_detection_characterization (img : Img) (gp : GhostPattern)
    (coords : List GhostCoord) (cnt : Nat)
    (hc : gp.coordinates = some coords) (hn : gp.count = some cnt) :
    (cnt = 0 → detectGhostDots img gp
        = .ok ({ score := 100, detected := 0, expected := 0, detection_rate := none,
                 status := "PASS" }, img))
    ∧ (0 < cnt →
        detectGhostDots img gp = .ok (ghostMainResult img coords cnt, img)
        ∧ (∀ c : GhostCoord, ghostDotDetected img c = true ↔ truncGhostDetected img c)
        ∧ (∀ c : GhostCoord, imgHeight img ≤ c.y ∨ imgWidth img ≤ c.x →
            ghostDotDetected img c = false)
        ∧ (ghostMainResult img coords cnt).detected
            = (coords.filter (fun c => ghostDotDetected img c)).length
        ∧ (ghostMainResult img coords cnt).expected = cnt
        ∧ (ghostMainResult img coords cnt).detection_rate
            = some (((ghostMainResult img coords cnt).detected : ℚ) / (cnt : ℚ) * 100)
        ∧ (ghostMainResult img coords cnt).score
            = min 100 ((((ghostMainResult img coords cnt).detected : ℚ) / (cnt : ℚ) * 100)
                * (21 / 20))
        ∧ ((ghostMainResult img coords cnt).status = "PASS"
            ↔ 70 ≤ (ghostMainResult img coords cnt).score)) := by
  constructor
  · intro h0
    subst h0
    unfold detectGhostDots
    rw [hc, hn]
    rfl
  · intro hpos
    have hne : cnt ≠ 0 := Nat.pos_iff_ne_zero.mp hpos
    refine ⟨?_, ghostDotDetected_iff img, ?_, rfl, rfl, rfl, rfl, ?_⟩
    · unfold detectGhostDots
      rw [hc, hn]
      exact if_neg hne
    · intro c hb
      have hbb : (imgHeight img ≤ c.y || imgWidth img ≤ c.x) = true := by
        rcases hb with h | h <;> simp [h]
      unfold ghostDotDetected
      rw [if_pos hbb]
    · show (if 70 ≤ min 100 (ghostDetectionRate img coords cnt * (21 / 20))
            then "PASS" else "FAIL") = "PASS" ↔ _
      split_ifs with h70
      · simpa [ghostMainResult] using h70
      · constructor
        · intro hf; exact absurd hf (by decide)
        · intro hs; exact absurd (by simpa [ghostMainResult] using hs) h70

/-- Witness for C4 on a 1×1 white raster with one recorded in-range dot. -/
theorem ghost_detection_characterization_witness :
    detectGhostDots imgA patA = .ok (ghostMainResult imgA [cA] 1, imgA) :=
  ((ghost_detection_characterization imgA patA [cA] 1 rfl rfl).2 Nat.one_pos).1

/-- Claim C6 (confirmed): the frequency channel returns score 0 with
`NO_SIGNATURE` on an empty stored signature, score 0 with `SIZE_MISMATCH`
when the extracted DCT block's shape differs from the stored signature's,
and otherwise scores `clamp(correlation·100, 0, 100)` of the Pearson
correlation of the flattened block against the flattened signature, NaN
mapping to 0, status PASS iff score ≥ 50; any non-positive correlation
yields score 0. -/
theorem frequency_watermark_scoring (ext : DetectExternals) (img : Img) (sig : Mat)
    (expected : Option (Nat × Nat)) :
    (matSize sig = 0 →
        verifyFrequencyWatermark ext img sig expected
          = ({ score := 0, correlation := 0, status := "NO_SIGNATURE" }, img))
    ∧ (matSize sig ≠ 0 → 0 < imgHeight img → 0 < imgWidth img →
        (matShape (freqExtracted ext img sig expected) ≠ matShape sig →
            verifyFrequencyWatermark ext img sig expected
              = ({ score := 0, correlation := 0, status := "SIZE_MISMATCH" }, img))
        ∧ (matShape (freqExtracted ext img sig expected) = matShape sig →
            (verifyFrequencyWatermark ext img sig expected).1.score
                = max 0 (min 100 (freqCorrelation ext img sig expected * 100))
            ∧ (verifyFrequencyWatermark ext img sig expected).1.correlation
                = freqCorrelation ext img sig expected
            ∧ (ext.pearson (matFlatten sig) (matFlatten (freqExtracted ext img sig expected))
                  = none →
                (verifyFrequencyWatermark ext img sig expected).1.correlation = 0)
            ∧ ((verifyFrequencyWatermark ext img sig expected).1.status = "PASS"
                ↔ 50 ≤ (verifyFrequencyWatermark ext img sig expected).1.score)
            ∧ (freqCorrelation ext img sig expected ≤ 0 →
                (verifyFrequencyWatermark ext img sig expected).1.score = 0))) := by
  constructor
  · intro h0
    unfold verifyFrequencyWatermark
    rw [if_pos h0]
  · intro hs hh hw
    have hne : ¬(imgHeight img = 0 ∨ imgWidth img = 0) := by omega
    constructor
    · intro hm
      unfold verifyFrequencyWatermark
      rw [if_neg hs, if_neg hne, if_pos hm]
    · intro hm
      unfold verifyFrequencyWatermark
      rw [if_neg hs, if_neg hne, if_neg (by simp [hm])]
      refine ⟨rfl, rfl, ?_, ?_, ?_⟩
      · intro hnan
        show freqCorrelation ext img sig expected = 0
        unfold freqCorrelation
        rw [hnan]
        rfl
      · dsimp only
        split_ifs with h50
        · exact ⟨fun _ => h50, fun _ => rfl⟩
        · exact ⟨fun hf => absurd hf (by decide), fun hs50 => absurd hs50 h50⟩
      · intro hc
        show max 0 (min 100 (freqCorrelation ext img sig expected * 100)) = 0
        have h1 : freqCorrelation ext img sig expected * 100 ≤ 0 := by linarith
        exact max_eq_left (le_trans (min_le_right _ _) h1)

/-- Witness for C6 with identity DCT, constant Pearson correlation 3/4, a
4×4 white raster and a 1×1 signature. -/
theorem frequency_watermark_scoring_witness :
    freqCorrelation extD6 imgW6 [[(1 : ℚ)]] none = 3 / 4
    ∧ (verifyFrequencyWatermark extD6 imgW6 [[(1 : ℚ)]] none).1.status = "PASS" := by
  have hsz : matSize ([[(1 : ℚ)]] : Mat) ≠ 0 := by decide
  have hsh : matShape (freqExtracted extD6 imgW6 [[(1 : ℚ)]] none) = matShape [[(1 : ℚ)]] := by
    decide
  have hmain := ((frequency_watermark_scoring extD6 imgW6 [[(1 : ℚ)]] none).2 hsz
    (by decide) (by decide)).2 hsh
  have hcorr : freqCorrelation extD6 imgW6 [[(1 : ℚ)]] none = 3 / 4 := rfl
  refine ⟨hcorr, hmain.2.2.2.1.mpr ?_⟩
  rw [hmain.1, hcorr]
  norm_num

/-- Claim C7 (confirmed): on every candidate whose stride-5 offset-5 grid
is non-empty and every non-empty stored fingerprint hash, the channel
scores `integrity·100` where integrity maps the sample variance as
`0.9 + v/2000` capped at 1.0 on `[50, 200]`, `v/50·0.6` below 50, and 0.7
above 200; status PASS iff score ≥ 60; and the stored hash value never
influences the result. -/
theorem pixel_fingerprint_scoring (img : Img) (origHash : String)
    (h1 : origHash ≠ "") (h2 : fingerprintSamples img ≠ []) :
    (analyzePixelFingerprint img origHash).1.score
        = specFingerprintIntegrity (popVar (pixelScalars (fingerprintSamples img))) * 100
    ∧ (analyzePixelFingerprint img origHash).1.variance
        = some (popVar (pixelScalars (fingerprintSamples img)))
    ∧ ((analyzePixelFingerprint img origHash).1.status = "PASS"
        ↔ 60 ≤ (analyzePixelFingerprint img origHash).1.score)
    ∧ (∀ h3 : String, h3 ≠ "" →
        analyzePixelFingerprint img h3 = analyzePixelFingerprint img origHash) := by
  have hps : pixelScalars (fingerprintSamples img) ≠ [] := pixelScalars_ne_nil _ h2
  have hv : 0 ≤ popVar (pixelScalars (fingerprintSamples img)) := popVar_nonneg _ hps
  have heq := fingerprintIntegrity_eq_spec (popVar (pixelScalars (fingerprintSamples img))) hv
  unfold analyzePixelFingerprint
  rw [if_neg h1, if_neg h2]
  refine ⟨?_, rfl, ?_, ?_⟩
  · show fingerprintIntegrity (popVar (pixelScalars (fingerprintSamples img))) * 100
        = specFingerprintIntegrity (popVar (pixelScalars (fingerprintSamples img))) * 100
    rw [heq]
  · dsimp only
    split_ifs with h60
    · exact ⟨fun _ => h60, fun _ => rfl⟩
    · exact ⟨fun hf => absurd hf (by decide), fun hs60 => absurd hs60 h60⟩
  · intro h3 hh3
    rw [if_neg hh3]

/-- Witness for C7 on a uniform 6×6 raster (one grid sample) and the
stored hash "h". -/
theorem pixel_fingerprint_scoring_witness :
    (analyzePixelFingerprint imgF "h").1.score
      = specFingerprintIntegrity (popVar (pixelScalars (fingerprintSamples imgF))) * 100 :=
  (pixel_fingerprint_scoring imgF "h" (by decide) (by decide)).1

/-- Claim C8 counterexample: the 5×8 raster `imgC8` has Laplacian variance
exactly 50, and the metadata heuristic scores it 30, not 60 — the band
boundary at exactly 50 belongs to the score-30 band, contrary to the
claim. -/
theorem metadata_band_boundary_counterexample :
    laplacianVar imgC8 = 50
    ∧ (analyzeMetadata imgC8).1.score = 30
    ∧ (analyzeMetadata imgC8).1.score ≠ 60 := by
  have hs : (lapValuesInt imgC8).sum = 0 := by decide
  have hsq : ((lapValuesInt imgC8).map (fun z => z * z)).sum = 2000 := by decide
  have hlen : (lapValuesInt imgC8).length = 40 := by decide
  have h1 : (lapValues imgC8).length = 40 := by
    unfold lapValues
    rw [List.length_map, hlen]
  have h2 : (lapValues imgC8).sum = 0 := by
    unfold lapValues
    rw [← intCast_list_sum, hs]
    norm_num
  have h3 : ((lapValues imgC8).map (fun x => x ^ 2)).sum = 2000 := by
    unfold lapValues
    rw [List.map_map]
    have h4 := intCast_sq_list_sum (lapValuesInt imgC8)
    rw [hsq] at h4
    simpa [Function.comp] using h4
  have hvar : laplacianVar imgC8 = 50 := by
    unfold laplacianVar popVar
    rw [h1, h2, h3]
    norm_num
  have hne : ¬(imgHeight imgC8 = 0 ∨ imgWidth imgC8 = 0) := by decide
  have hscore : (analyzeMetadata imgC8).1.score = 30 := by
    unfold analyzeMetadata
    rw [if_neg hne, if_neg (by rw [hvar]; norm_num), if_neg (by rw [hvar]; norm_num)]
  exact ⟨hvar, hscore, by rw [hscore]; norm_num⟩

/-- Claim C8 (corrected): on every non-empty candidate the metadata
heuristic scores the Laplacian variance into three bands — above 100 score
90 with camera characteristics, in (50, 100] score 60, and at or below 50
score 30: the band boundary at exactly 50 belongs to the score-30 band. -/
theorem metadata_sharpness_bands (img : Img) (hh : 0 < imgHeight img)
    (hw : 0 < imgWidth img) :
    (100 < laplacianVar img →
        (analyzeMetadata img).1.score = 90
        ∧ (analyzeMetadata img).1.has_camera_characteristics = some true)
    ∧ (50 < laplacianVar img ∧ laplacianVar img ≤ 100 →
        (analyzeMetadata img).1.score = 60
        ∧ (analyzeMetadata img).1.has_camera_characteristics = some false)
    ∧ (laplacianVar img ≤ 50 →
        (analyzeMetadata img).1.score = 30
        ∧ (analyzeMetadata img).1.has_camera_characteristics = some false)
    ∧ (analyzeMetadata img).1.sharpness = some (laplacianVar img) := by
  have hne : ¬(imgHeight img = 0 ∨ imgWidth img = 0) := by omega
  unfold analyzeMetadata
  rw [if_neg hne]
  split_ifs with hv1 hv2
  · exact ⟨fun _ => ⟨rfl, rfl⟩, fun h => absurd hv1 (by linarith [h.2]),
      fun h => absurd hv1 (by linarith), rfl⟩
  · exact ⟨fun h => absurd h hv1, fun _ => ⟨rfl, rfl⟩,
      fun h => absurd hv2 (by linarith), rfl⟩
  · exact ⟨fun h => absurd h hv1, fun h => absurd h.1 hv2,
      fun _ => ⟨rfl, rfl⟩, rfl⟩

/-- Witness for C8 on the all-black 1×1 raster (Laplacian variance 0). -/
theorem metadata_sharpness_bands_witness :
    (analyzeMetadata imgBlack1).1.score = 30
    ∧ (analyzeMetadata imgBlack1).1.has_camera_characteristics = some false :=
  (metadata_sharpness_bands imgBlack1 (by decide) (by decide)).2.2.1
    (by
      have hs : (lapValuesInt imgBlack1).sum = 0 := by decide
      have hsq : ((lapValuesInt imgBlack1).map (fun z => z * z)).sum = 0 := by decide
      have hlen : (lapValuesInt imgBlack1).length = 1 := by decide
      have h1 : (lapValues imgBlack1).length = 1 := by
        unfold lapValues
        rw [List.length_map, hlen]
      have h2 : (lapValues imgBlack1).sum = 0 := by
        unfold lapValues
        rw [← intCast_list_sum, hs]
        norm_num
      have h3 : ((lapValues imgBlack1).map (fun x => x ^ 2)).sum = 0 := by
        unfold lapValues
        rw [List.map_map]
        have h4 := intCast_sq_list_sum (lapValuesInt imgBlack1)
        rw [hsq] at h4
        simpa [Function.comp] using h4
      have hvar : laplacianVar imgBlack1 = 0 := by
        unfold laplacianVar popVar
        rw [h1, h2, h3]
        norm_num
      rw [hvar]
      norm_num)

end SecureQR



